import Mathlib

/-!
Shallow embedding of the concurrent load-test harness of this repository
(`tests/load-test-coach-companion.py` and `tests/load-test-small.py`) and a
verification of its specified properties.

Modelling conventions:
* Wall-clock durations and timestamps (Python floats) are modelled as exact
  rationals `ℚ`; the percentile index computations `len // 2`,
  `int(len * 0.95)` and `int(len * 0.99)` are modelled by the exact natural
  floors `n / 2`, `n * 95 / 100` and `n * 99 / 100`, which agree with the
  Python float computations on all realistic sizes.
* Python's `sorted` (the unique ascending reordering of a list of rationals)
  is modelled by `List.insertionSort (· ≤ ·)`.
* The external collaborator (`client.invoke_agent_runtime` together with
  reading and JSON-decoding its streamed body) is a parameter: one call
  either raises an exception carrying a message, or returns the decoded
  response payload, and takes some elapsed wall-clock time.
* The orchestrator consumes completed user tasks in completion order, which
  is nondeterministic; the model processes them in user-index order.  All
  verified properties are counts or per-user contents, which are independent
  of the interleaving.
* Python indexing that would raise `IndexError` out of range is modelled by
  `List.getD`; the in-bounds theorems below show the default is never taken
  on the paths the program exercises.
-/

namespace LoadTestHarness

/-- One item of the decoded response payload's `content` list; the `text`
field is present or absent, as with the Python dict key `'text'`. -/
structure ContentItem where
  text : Option String
deriving DecidableEq

/-- The outcome of one call to the external collaborator: either the call
raises an exception with a message, or it returns a decoded payload whose
`'response'` key (holding the `content` list, defaulted to `[]` when the
`'content'` key is missing) may be present or absent.  Either way the call
consumes `elapsed_ms` of wall-clock time. -/
inductive AgentCall where
  | raises (msg : String) (elapsed_ms : ℚ)
  | returns (content : Option (List ContentItem)) (elapsed_ms : ℚ)
deriving DecidableEq

/-- Text extraction from a decoded payload, as in both scripts: concatenate
`item['text']` over the `content` items that have a `'text'` key; an absent
`'response'` key leaves `full_response` as the empty string. -/
def full_response_of : Option (List ContentItem) → String
  | none => ""
  | some content =>
      content.foldl
        (fun acc item =>
          match item.text with
          | some t => acc ++ t
          | none => acc)
        ""

/-- The `(success, duration_ms, error_message)` triple returned by
`invoke_agent`. -/
structure InvokeResult where
  success : Bool
  duration_ms : ℚ
  error : String
deriving DecidableEq

/-- The `invoke_agent` of `load-test-coach-companion.py`: call the external
collaborator; on an exception return a failure carrying the exception's
message and the elapsed time; on a decoded response extract the text and
classify it, succeeding exactly when the text is non-empty and longer than
10 characters and otherwise failing with "Empty or too short response".
The exception handler covers the whole body, so this function is total:
no exception escapes it. -/
def invoke_agent (collab : String → String → AgentCall)
    (prompt session_id : String) : InvokeResult :=
  match collab prompt session_id with
  | .raises msg t => ⟨false, t, msg⟩
  | .returns content t =>
      let full_response := full_response_of content
      if full_response ≠ "" ∧ full_response.length > 10 then ⟨true, t, ""⟩
      else ⟨false, t, "Empty or too short response"⟩

/-- The `invoke_agent` of `load-test-small.py`: identical exception handling,
but the extracted `full_response` is computed and then discarded — every
call that does not raise is reported as a success with an empty error. -/
def invoke_agent_small (collab : String → String → AgentCall)
    (prompt session_id : String) : InvokeResult :=
  match collab prompt session_id with
  | .raises msg t => ⟨false, t, msg⟩
  | .returns content t =>
      let _full_response := full_response_of content
      ⟨true, t, ""⟩

/-- The mutable accumulator `LoadTestResults` of the main script. -/
structure LoadTestResults where
  total_requests : ℕ
  successful_requests : ℕ
  failed_requests : ℕ
  response_times : List ℚ
  errors : List String
  start_time : Option ℚ
  end_time : Option ℚ
deriving DecidableEq

/-- Method `LoadTestResults.add_success`. -/
def add_success (s : LoadTestResults) (duration_ms : ℚ) : LoadTestResults :=
  { s with
    successful_requests := s.successful_requests + 1
    response_times := s.response_times ++ [duration_ms] }

/-- Method `LoadTestResults.add_failure`. -/
def add_failure (s : LoadTestResults) (error : String) : LoadTestResults :=
  { s with
    failed_requests := s.failed_requests + 1
    errors := s.errors ++ [error] }

/-- The statistics dictionary returned by `LoadTestResults.get_statistics`. -/
structure Stats where
  total_requests : ℕ
  successful : ℕ
  failed : ℕ
  success_rate : ℚ
  avg_response_time : ℚ
  min_response_time : ℚ
  max_response_time : ℚ
  p50_response_time : ℚ
  p95_response_time : ℚ
  p99_response_time : ℚ
  total_duration : ℚ
  requests_per_second : ℚ
deriving DecidableEq

/-- Index used for the p50 percentile: `len(sorted_times) // 2`. -/
def p50_index (n : ℕ) : ℕ := n / 2

/-- Index used for the p95 percentile: `int(len(sorted_times) * 0.95)`. -/
def p95_index (n : ℕ) : ℕ := n * 95 / 100

/-- Index used for the p99 percentile: `int(len(sorted_times) * 0.99)`. -/
def p99_index (n : ℕ) : ℕ := n * 99 / 100

/-- Method `LoadTestResults.get_statistics`.  With no recorded success
latency it returns the all-zero record (counts passed through); otherwise it
sorts the latencies and computes the aggregate fields, guarding the
success-rate and throughput divisions exactly as the source does.  Python's
`min`/`max` on the (here provably non-empty) latency list are modelled with
`List.min?`/`List.max?` defaulted to `0`, and Python's raw indexing of the
sorted list with `List.getD` defaulted to `0`. -/
def get_statistics (s : LoadTestResults) : Stats :=
  if s.response_times = [] then
    { total_requests := s.total_requests
      successful := s.successful_requests
      failed := s.failed_requests
      success_rate := 0
      avg_response_time := 0
      min_response_time := 0
      max_response_time := 0
      p50_response_time := 0
      p95_response_time := 0
      p99_response_time := 0
      total_duration := 0
      requests_per_second := 0 }
  else
    let sorted_times := List.insertionSort (· ≤ ·) s.response_times
    let n := sorted_times.length
    let total_duration : ℚ :=
      match s.end_time, s.start_time with
      | some e, some st => e - st
      | _, _ => 0
    { total_requests := s.total_requests
      successful := s.successful_requests
      failed := s.failed_requests
      success_rate :=
        if 0 < s.total_requests then
          (s.successful_requests : ℚ) / (s.total_requests : ℚ) * 100
        else 0
      avg_response_time := s.response_times.sum / (s.response_times.length : ℚ)
      min_response_time := (s.response_times.min?).getD 0
      max_response_time := (s.response_times.max?).getD 0
      p50_response_time := sorted_times.getD (p50_index n) 0
      p95_response_time := sorted_times.getD (p95_index n) 0
      p99_response_time := sorted_times.getD (p99_index n) 0
      total_duration := total_duration
      requests_per_second :=
        if 0 < total_duration then (s.total_requests : ℚ) / total_duration
        else 0 }

/-- The two thresholds the final verdict of `run_load_test` can report as
violated. -/
inductive Threshold where
  | successRate
  | avgResponseTime
deriving DecidableEq

/-- The exit code computed at the end of `run_load_test`: `0` iff the
success rate is at least 95 percent and the average latency is strictly
below 15000 ms, else `1`. -/
def verdict_exit_code (stats : Stats) : ℕ :=
  if 95 ≤ stats.success_rate ∧ stats.avg_response_time < 15000 then 0 else 1

/-- The threshold violations printed in the failure branch of
`run_load_test`; the passing branch reports none. -/
def reported_violations (stats : Stats) : List Threshold :=
  if 95 ≤ stats.success_rate ∧ stats.avg_response_time < 15000 then []
  else
    (if stats.success_rate < 95 then [Threshold.successRate] else []) ++
      (if 15000 ≤ stats.avg_response_time then [Threshold.avgResponseTime]
       else [])

/-- Index of the prompt chosen for request `i` of user `user_id`:
`(user_id + i) % len(TEST_PROMPTS)`. -/
def prompt_index (user_id i n : ℕ) : ℕ := (user_id + i) % n

/-- Prompt selection in `simulate_user`:
`TEST_PROMPTS[(user_id + i) % len(TEST_PROMPTS)]`. -/
def select_prompt (prompts : List String) (user_id i : ℕ) : String :=
  prompts.getD (prompt_index user_id i prompts.length) ""

/-- The per-user summary dictionary built by `simulate_user`.  The `error`
field models the single `'error'` dict key, which is overwritten by each
failed request. -/
structure UserSimResult where
  user_id : ℕ
  successful : ℕ
  failed : ℕ
  response_times : List ℚ
  error : Option String
deriving DecidableEq

/-- One iteration of the request loop in `simulate_user`: a success bumps
the success count and appends the latency; a failure bumps the failure
count and overwrites the single `error` slot. -/
def record_trial (acc : UserSimResult) (r : InvokeResult) : UserSimResult :=
  if r.success then
    { acc with
      successful := acc.successful + 1
      response_times := acc.response_times ++ [r.duration_ms] }
  else
    { acc with failed := acc.failed + 1, error := some r.error }

/-- The invocation performed for request `i` of user `user_id`: call
`invoke_agent` on the deterministically selected prompt with the user's
session id.  The collaborator's behaviour may differ per request index. -/
def user_trial (collab : ℕ → String → String → AgentCall)
    (prompts : List String) (session_id : String) (user_id i : ℕ) :
    InvokeResult :=
  invoke_agent (collab i) (select_prompt prompts user_id i) session_id

/-- The `simulate_user` function: run `requests_per_user` sequential trials
for one user with a fixed fresh session id, folding each outcome into the
per-user summary. -/
def simulate_user (requests_per_user : ℕ) (prompts : List String)
    (collab : ℕ → String → String → AgentCall) (session_id : String)
    (user_id : ℕ) : UserSimResult :=
  (List.range requests_per_user).foldl
    (fun acc i => record_trial acc (user_trial collab prompts session_id user_id i))
    ⟨user_id, 0, 0, [], none⟩

/-- What harvesting one submitted user task with `future.result()` yields:
either the user's summary, or the exception raised while producing it. -/
inductive TaskResult where
  | ok (r : UserSimResult)
  | crashed (msg : String)
deriving DecidableEq

/-- The per-user aggregation step of `run_load_test`'s collection loop:
append one success per recorded latency, then record
`user_result["failed"]` copies of the (single, last) stored error text,
defaulting to "Unknown error" when no error was stored. -/
def process_user_result (s : LoadTestResults) (ur : UserSimResult) :
    LoadTestResults :=
  let s1 := ur.response_times.foldl add_success s
  (List.range ur.failed).foldl
    (fun acc _ => add_failure acc (ur.error.getD "Unknown error")) s1

/-- Harvesting one completed future in `run_load_test`: a normal result is
aggregated; an exception from `future.result()` is caught and recorded as a
single additional failure. -/
def collect_result (s : LoadTestResults) : TaskResult → LoadTestResults
  | .ok ur => process_user_result s ur
  | .crashed msg => add_failure s msg

/-- The `run_load_test` orchestration: fix `total_requests = N * M` up
front, record the start time, harvest every submitted user task, and record
the end time.  The task outcomes are supplied by `task`; completion order is
modelled as user-index order. -/
def run_load_test (num_users requests_per_user : ℕ) (task : ℕ → TaskResult)
    (start stop : ℚ) : LoadTestResults :=
  let init : LoadTestResults :=
    { total_requests := num_users * requests_per_user
      successful_requests := 0
      failed_requests := 0
      response_times := []
      errors := []
      start_time := some start
      end_time := none }
  let final := (List.range num_users).foldl
    (fun s u => collect_result s (task u)) init
  { final with end_time := some stop }

/-- The task actually submitted for each user by `run_load_test`: a
`simulate_user` run that either completes normally or crashes; `crash u`
gives the message of the exception `future.result()` re-raises for user `u`
(`none` when the task completes). -/
def crashable_task (requests_per_user : ℕ) (prompts : List String)
    (collab : ℕ → ℕ → String → String → AgentCall) (sessions : ℕ → String)
    (crash : ℕ → Option String) (u : ℕ) : TaskResult :=
  match crash u with
  | some msg => TaskResult.crashed msg
  | none =>
      TaskResult.ok
        (simulate_user requests_per_user prompts (collab u) (sessions u) u)

/-- The number of trial outcomes one harvested task contributes to the
accumulator: a completed user contributes one outcome per recorded latency
plus one per counted failure; a crashed task contributes a single failure. -/
def task_outcomes : TaskResult → ℕ
  | .ok ur => ur.response_times.length + ur.failed
  | .crashed _ => 1

/-- A full run: `run_load_test` over the tasks actually submitted, where
each user's `simulate_user` either completes or crashes according to
`crash`. -/
def crashable_run (num_users requests_per_user : ℕ) (prompts : List String)
    (collab : ℕ → ℕ → String → String → AgentCall) (sessions : ℕ → String)
    (crash : ℕ → Option String) (start stop : ℚ) : LoadTestResults :=
  run_load_test num_users requests_per_user
    (crashable_task requests_per_user prompts collab sessions crash)
    start stop

/-- A concrete statistics record that misses both thresholds on the
success-rate side: 94 percent success rate, average latency 14999 ms. -/
def failing_stats : Stats :=
  { total_requests := 100
    successful := 94
    failed := 6
    success_rate := 94
    avg_response_time := 14999
    min_response_time := 0
    max_response_time := 0
    p50_response_time := 0
    p95_response_time := 0
    p99_response_time := 0
    total_duration := 0
    requests_per_second := 0 }

/-- A decoded collaborator payload holding one content item with a reply
comfortably longer than 10 characters. -/
def long_reply_content : Option (List ContentItem) :=
  some [⟨some "a sufficiently long reply"⟩]

/-- A collaborator that always returns `long_reply_content` after 3 ms. -/
def long_reply_collab : String → String → AgentCall :=
  fun _ _ => AgentCall.returns long_reply_content 3

/-- A concrete `LoadTestResults` state after five successful trials with
latencies 10, 20, 30, 40 and 100 ms, as in the specification's worked
percentile example. -/
def sample_state : LoadTestResults :=
  { total_requests := 5
    successful_requests := 5
    failed_requests := 0
    response_times := [10, 20, 30, 40, 100]
    errors := []
    start_time := none
    end_time := none }

/-- Auxiliary: the last element of a cons is the last element of the tail,
falling back to the head when the tail is empty. -/
theorem getLast?_cons_or {α : Type} (a : α) (l : List α) :
    (a :: l).getLast? = Option.or l.getLast? (some a) := by
  cases l with
  | nil => rfl
  | cons b l' =>
      rw [List.getLast?_cons_cons]
      cases h : (b :: l').getLast? with
      | none => simp [List.getLast?_eq_none_iff] at h
      | some x => rfl

/-- Folding `record_trial` adds one success per successful trial result. -/
theorem foldl_record_successful (rs : List InvokeResult) :
    ∀ acc : UserSimResult,
      (rs.foldl record_trial acc).successful
        = acc.successful + (rs.filter (fun r => r.success)).length := by
  induction rs with
  | nil => intro acc; simp
  | cons r rs ih =>
      intro acc
      by_cases h : r.success <;>
        simp [record_trial, h, ih, Nat.add_assoc, Nat.add_comm 1]

/-- Folding `record_trial` adds one failure per failed trial result. -/
theorem foldl_record_failed (rs : List InvokeResult) :
    ∀ acc : UserSimResult,
      (rs.foldl record_trial acc).failed
        = acc.failed + (rs.filter (fun r => !r.success)).length := by
  induction rs with
  | nil => intro acc; simp
  | cons r rs ih =>
      intro acc
      by_cases h : r.success <;>
        simp [record_trial, h, ih, Nat.add_assoc, Nat.add_comm 1]

/-- Folding `record_trial` appends exactly the latencies of the successful
trial results, in order. -/
theorem foldl_record_times (rs : List InvokeResult) :
    ∀ acc : UserSimResult,
      (rs.foldl record_trial acc).response_times
        = acc.response_times
            ++ (rs.filter (fun r => r.success)).map (fun r => r.duration_ms) := by
  induction rs with
  | nil => intro acc; simp
  | cons r rs ih =>
      intro acc
      by_cases h : r.success <;> simp [record_trial, h, ih]

/-- Folding `record_trial` leaves in the single error slot the error text of
the last failed trial result, keeping the previous content when no trial
failed. -/
theorem foldl_record_error (rs : List InvokeResult) :
    ∀ acc : UserSimResult,
      (rs.foldl record_trial acc).error
        = Option.or
            (((rs.filter (fun r => !r.success)).map (fun r => r.error)).getLast?)
            acc.error := by
  induction rs with
  | nil => intro acc; simp
  | cons r rs ih =>
      intro acc
      by_cases h : r.success
      · simp only [List.foldl_cons]
        rw [ih]
        simp [record_trial, h]
      · simp only [List.foldl_cons]
        rw [ih]
        simp [record_trial, h, getLast?_cons_or, Option.or_assoc]

/-- Folding `add_success` over a latency list appends the list and bumps the
success count by its length, leaving every other field unchanged. -/
theorem foldl_add_success_spec (ts : List ℚ) :
    ∀ s : LoadTestResults,
      ts.foldl add_success s
        = { s with
            successful_requests := s.successful_requests + ts.length
            response_times := s.response_times ++ ts } := by
  induction ts with
  | nil => intro s; simp
  | cons t ts ih =>
      intro s
      simp [add_success, ih, Nat.add_assoc, Nat.add_comm 1]

/-- Recording `k` failures with a fixed error text bumps the failure count
by `k` and appends `k` copies of the text, leaving every other field
unchanged. -/
theorem foldl_add_failure_spec (e : String) :
    ∀ (k : ℕ) (s : LoadTestResults),
      (List.range k).foldl (fun acc _ => add_failure acc e) s
        = { s with
            failed_requests := s.failed_requests + k
            errors := s.errors ++ List.replicate k e } := by
  intro k
  induction k with
  | zero => intro s; simp
  | succ k ih =>
      intro s
      rw [List.range_succ, List.foldl_append, ih s]
      simp [add_failure, List.replicate_succ' k, Nat.add_assoc]

/-- Field-level description of the per-user aggregation step of
`run_load_test`: the user's success latencies are appended one by one, and
the user's failure count is replayed as that many copies of the single
stored error text. -/
theorem process_user_result_spec (s : LoadTestResults) (ur : UserSimResult) :
    process_user_result s ur
      = { s with
          successful_requests :=
            s.successful_requests + ur.response_times.length
          response_times := s.response_times ++ ur.response_times
          failed_requests := s.failed_requests + ur.failed
          errors :=
            s.errors
              ++ List.replicate ur.failed (ur.error.getD "Unknown error") } := by
  simp [process_user_result, foldl_add_success_spec, foldl_add_failure_spec]

/-- Harvesting one task adds exactly `task_outcomes` outcomes to the
success/failure totals. -/
theorem collect_result_counts (s : LoadTestResults) (t : TaskResult) :
    (collect_result s t).successful_requests
        + (collect_result s t).failed_requests
      = s.successful_requests + s.failed_requests + task_outcomes t := by
  cases t with
  | ok ur => simp [collect_result, process_user_result_spec, task_outcomes]; omega
  | crashed msg => simp [collect_result, add_failure, task_outcomes]; omega

/-- Harvesting tasks never changes the up-front `total_requests`. -/
theorem collect_result_total (s : LoadTestResults) (t : TaskResult) :
    (collect_result s t).total_requests = s.total_requests := by
  cases t with
  | ok ur => simp [collect_result, process_user_result_spec]
  | crashed msg => simp [collect_result, add_failure]

/-- The collection loop over any list of users adds up the per-task outcome
counts. -/
theorem foldl_collect_counts (task : ℕ → TaskResult) (l : List ℕ) :
    ∀ s : LoadTestResults,
      (l.foldl (fun s u => collect_result s (task u)) s).successful_requests
          + (l.foldl (fun s u => collect_result s (task u)) s).failed_requests
        = s.successful_requests + s.failed_requests
            + (l.map (fun u => task_outcomes (task u))).sum := by
  induction l with
  | nil => intro s; simp
  | cons u l ih =>
      intro s
      simp only [List.foldl_cons, List.map_cons, List.sum_cons]
      rw [ih, collect_result_counts]
      omega

/-- The collection loop preserves `total_requests`. -/
theorem foldl_collect_total (task : ℕ → TaskResult) (l : List ℕ) :
    ∀ s : LoadTestResults,
      (l.foldl (fun s u => collect_result s (task u)) s).total_requests
        = s.total_requests := by
  induction l with
  | nil => intro s; simp
  | cons u l ih =>
      intro s
      simp only [List.foldl_cons]
      rw [ih, collect_result_total]

/-- A list filtered by a predicate and by its negation partitions its
length. -/
theorem length_filter_partition {α : Type} (p : α → Bool) (l : List α) :
    (l.filter p).length + (l.filter (fun a => !p a)).length = l.length := by
  induction l with
  | nil => rfl
  | cons a l ih => by_cases h : p a <;> simp [h, ← ih] <;> omega

/-- Summing a two-valued map over a list counts each branch with the
corresponding filter. -/
theorem sum_map_ite (p : ℕ → Bool) (a b : ℕ) (l : List ℕ) :
    (l.map (fun u => if p u then a else b)).sum
      = (l.filter p).length * a + (l.filter (fun u => !p u)).length * b := by
  induction l with
  | nil => simp
  | cons u l ih =>
      by_cases h : p u <;> simp [h, ih] <;> ring

/-- A `simulate_user` run records one outcome per request: the success and
failure counts sum to `requests_per_user`, and the latency list has exactly
one entry per success. -/
theorem simulate_user_counts (requests_per_user : ℕ) (prompts : List String)
    (collab : ℕ → String → String → AgentCall) (session_id : String)
    (user_id : ℕ) :
    (simulate_user requests_per_user prompts collab session_id user_id).successful
        + (simulate_user requests_per_user prompts collab session_id user_id).failed
      = requests_per_user
    ∧ (simulate_user requests_per_user prompts collab session_id
          user_id).response_times.length
      = (simulate_user requests_per_user prompts collab session_id
          user_id).successful := by
  unfold simulate_user
  rw [show (fun (acc : UserSimResult) (i : ℕ) =>
        record_trial acc (user_trial collab prompts session_id user_id i))
      = fun acc i => record_trial acc
          ((fun i => user_trial collab prompts session_id user_id i) i) from rfl,
    ← List.foldl_map]
  constructor
  · rw [foldl_record_successful, foldl_record_failed]
    have h := length_filter_partition (fun r : InvokeResult => r.success)
      ((List.range requests_per_user).map
        (fun i => user_trial collab prompts session_id user_id i))
    simp at h ⊢
    omega
  · rw [foldl_record_times, foldl_record_successful]
    simp

/-- A `simulate_user` run is the fold of `record_trial` over the list of
its trial outcomes. -/
theorem simulate_user_eq_foldl (requests_per_user : ℕ) (prompts : List String)
    (collab : ℕ → String → String → AgentCall) (session_id : String)
    (user_id : ℕ) :
    simulate_user requests_per_user prompts collab session_id user_id
      = ((List.range requests_per_user).map
            (user_trial collab prompts session_id user_id)).foldl
          record_trial ⟨user_id, 0, 0, [], none⟩ := by
  unfold simulate_user
  rw [List.foldl_map]

/-- C2: with recorded success latencies 10, 20, 30, 40 and 100 ms, the
statistics computation returns p50 = 30, p95 = 100, p99 = 100,
average = 40, min = 10 and max = 100. -/
theorem stats_on_worked_example :
    (get_statistics sample_state).p50_response_time = 30
    ∧ (get_statistics sample_state).p95_response_time = 100
    ∧ (get_statistics sample_state).p99_response_time = 100
    ∧ (get_statistics sample_state).avg_response_time = 40
    ∧ (get_statistics sample_state).min_response_time = 10
    ∧ (get_statistics sample_state).max_response_time = 100 := by
  refine ⟨by decide, by decide, by decide, ?_, by decide, by decide⟩
  have hne : ¬ (([10, 20, 30, 40, 100] : List ℚ) = []) := by decide
  norm_num [get_statistics, sample_state, hne]

/-- C5: whenever the collaborator call raises an exception, the trial
invocation of either load-test script returns a Failure whose error text is
the exception's message and whose latency is the elapsed wall-clock time;
both invocation functions are total, so the exception never propagates. -/
theorem invoke_agent_on_exception (collab : String → String → AgentCall)
    (prompt session_id msg : String) (t : ℚ)
    (h : collab prompt session_id = AgentCall.raises msg t) :
    invoke_agent collab prompt session_id = ⟨false, t, msg⟩
    ∧ invoke_agent_small collab prompt session_id = ⟨false, t, msg⟩ := by
  constructor <;> simp [invoke_agent, invoke_agent_small, h]

/-- Witness for C5 at a collaborator that raises "boom" after 42 ms. -/
theorem invoke_agent_on_exception_witness :
    invoke_agent (fun _ _ => AgentCall.raises "boom" 42) "p" "s"
        = ⟨false, 42, "boom"⟩
    ∧ invoke_agent_small (fun _ _ => AgentCall.raises "boom" 42) "p" "s"
        = ⟨false, 42, "boom"⟩ :=
  invoke_agent_on_exception _ "p" "s" "boom" 42 rfl

/-- C6 (amended): on a non-raising collaborator response, the main
load-test's trial invocation succeeds exactly when the extracted text is
non-empty and longer than 10 characters, and otherwise fails with error
text "Empty or too short response"; the small load-test's trial invocation
instead reports every non-raising response as a Success. -/
theorem invoke_agent_content_check (collab : String → String → AgentCall)
    (prompt session_id : String) (content : Option (List ContentItem))
    (t : ℚ) (h : collab prompt session_id = AgentCall.returns content t) :
    ((invoke_agent collab prompt session_id).success = true
        ↔ full_response_of content ≠ ""
          ∧ 10 < (full_response_of content).length)
    ∧ ((invoke_agent collab prompt session_id).success = false →
        invoke_agent collab prompt session_id
          = ⟨false, t, "Empty or too short response"⟩)
    ∧ invoke_agent_small collab prompt session_id = ⟨true, t, ""⟩ := by
  by_cases hc : full_response_of content ≠ ""
      ∧ (full_response_of content).length > 10
  · simp [invoke_agent, invoke_agent_small, h, hc]
  · simp [invoke_agent, invoke_agent_small, h, hc]

/-- Witness for C6 at a collaborator returning a 25-character reply. -/
theorem invoke_agent_content_check_witness :
    ((invoke_agent long_reply_collab "p" "s").success = true
        ↔ full_response_of long_reply_content ≠ ""
          ∧ 10 < (full_response_of long_reply_content).length)
    ∧ ((invoke_agent long_reply_collab "p" "s").success = false →
        invoke_agent long_reply_collab "p" "s"
          = ⟨false, 3, "Empty or too short response"⟩)
    ∧ invoke_agent_small long_reply_collab "p" "s" = ⟨true, 3, ""⟩ :=
  invoke_agent_content_check long_reply_collab "p" "s" long_reply_content 3
    rfl

/-- C6 counterexample: the small load-test's trial invocation, one of the
two cited trial invocations, classifies a structurally valid response with
empty extracted text as a Success, so success is not equivalent to the
content check there. -/
theorem small_invoke_skips_content_check :
    ¬ (((invoke_agent_small (fun _ _ => AgentCall.returns (some []) 7)
            "p" "s").success = true)
        ↔ full_response_of (some []) ≠ ""
          ∧ 10 < (full_response_of (some [])).length) := by
  decide

/-- C7: the prompt chosen for request `i` of user `user_id` is the entry of
the prompt list at index `(user_id + i) mod len(prompts)`, and for
user 3, request 2 and five prompts that index is 0.  The selection is a
pure function of the configuration, hence reproducible across runs. -/
theorem select_prompt_round_robin (prompts : List String) (user_id i : ℕ)
    (h : prompts ≠ []) :
    select_prompt prompts user_id i
      = prompts.get ⟨prompt_index user_id i prompts.length,
          Nat.mod_lt _ (List.length_pos.mpr h)⟩
    ∧ prompt_index 3 2 5 = 0 := by
  constructor
  · have hlt : prompt_index user_id i prompts.length < prompts.length :=
      Nat.mod_lt _ (List.length_pos.mpr h)
    simp [select_prompt, List.getD, List.getElem?_eq_getElem hlt,
      List.get_eq_getElem]
  · rfl

/-- Witness for C7 at user 3, request 2 and a five-prompt list. -/
theorem select_prompt_round_robin_witness :
    select_prompt ["a", "b", "c", "d", "e"] 3 2 = "a"
    ∧ prompt_index 3 2 5 = 0 := by
  have h := select_prompt_round_robin ["a", "b", "c", "d", "e"] 3 2
    (by decide)
  exact ⟨by rw [h.1]; rfl, h.2⟩

/-- C9: on an accumulator with no recorded success latency, the statistics
computation returns the complete record whose latency, rate and throughput
fields are all 0 (the request counts are passed through); being a total
Lean function whose divisions are all guarded, it never fails on any
accumulator state. -/
theorem get_statistics_empty (s : LoadTestResults)
    (h : s.response_times = []) :
    get_statistics s
      = { total_requests := s.total_requests
          successful := s.successful_requests
          failed := s.failed_requests
          success_rate := 0
          avg_response_time := 0
          min_response_time := 0
          max_response_time := 0
          p50_response_time := 0
          p95_response_time := 0
          p99_response_time := 0
          total_duration := 0
          requests_per_second := 0 } := by
  simp [get_statistics, h]

/-- Witness for C9 at the all-empty accumulator. -/
theorem get_statistics_empty_witness :
    get_statistics ⟨0, 0, 0, [], [], none, none⟩
      = ⟨0, 0, 0, 0, 0, 0, 0, 0, 0, 0, 0, 0⟩ :=
  get_statistics_empty ⟨0, 0, 0, [], [], none, none⟩ rfl

/-- C10: on a non-empty latency list of length `n`, the three percentile
indices the statistics computation uses — `n / 2`, `int(n * 0.95)` and
`int(n * 0.99)` — are all strictly below `n`, so the sorted-array indexing
is always in bounds. -/
theorem percentile_indices_in_bounds (s : LoadTestResults)
    (h : s.response_times ≠ []) :
    p50_index s.response_times.length < s.response_times.length
    ∧ p95_index s.response_times.length < s.response_times.length
    ∧ p99_index s.response_times.length < s.response_times.length := by
  have hn : 0 < s.response_times.length := List.length_pos.mpr h
  refine ⟨?_, ?_, ?_⟩ <;>
    · simp only [p50_index, p95_index, p99_index]
      omega

/-- Witness for C10 at the five-element worked example. -/
theorem percentile_indices_in_bounds_witness :
    p50_index sample_state.response_times.length
        < sample_state.response_times.length
    ∧ p95_index sample_state.response_times.length
        < sample_state.response_times.length
    ∧ p99_index sample_state.response_times.length
        < sample_state.response_times.length :=
  percentile_indices_in_bounds sample_state (by decide)

/-- C1 (amended): for every non-empty success-latency sequence, the
statistics computation returns p50, p95 and p99 by indexing the
zero-indexed ascending sorted latency sequence at positions `n / 2`,
`floor(0.95 * n)` and `floor(0.99 * n)` respectively, where `n` is the
sequence length — the index is `floor(rate * n)`, not
`floor(rate * (n - 1))`. -/
theorem percentiles_from_sorted (s : LoadTestResults)
    (h : s.response_times ≠ []) (sl : List ℚ)
    (hperm : sl.Perm s.response_times) (hsorted : sl.Sorted (· ≤ ·)) :
    (get_statistics s).p50_response_time = sl.getD (p50_index sl.length) 0
    ∧ (get_statistics s).p95_response_time = sl.getD (p95_index sl.length) 0
    ∧ (get_statistics s).p99_response_time
        = sl.getD (p99_index sl.length) 0 := by
  have hsl : List.insertionSort (· ≤ ·) s.response_times = sl :=
    (List.eq_of_perm_of_sorted
      (hperm.trans (List.perm_insertionSort _ _).symm) hsorted
      (List.sorted_insertionSort _ _)).symm
  simp [get_statistics, h, hsl]

/-- Witness for C1 at the worked five-latency example, whose sorted
permutation is itself. -/
theorem percentiles_from_sorted_witness :
    (get_statistics sample_state).p50_response_time
        = ([10, 20, 30, 40, 100] : List ℚ).getD
            (p50_index ([10, 20, 30, 40, 100] : List ℚ).length) 0
    ∧ (get_statistics sample_state).p95_response_time
        = ([10, 20, 30, 40, 100] : List ℚ).getD
            (p95_index ([10, 20, 30, 40, 100] : List ℚ).length) 0
    ∧ (get_statistics sample_state).p99_response_time
        = ([10, 20, 30, 40, 100] : List ℚ).getD
            (p99_index ([10, 20, 30, 40, 100] : List ℚ).length) 0 :=
  percentiles_from_sorted sample_state (by decide) [10, 20, 30, 40, 100]
    (List.Perm.refl _) (by decide)

/-- C1 counterexample: on the sorted five-latency sequence
10, 20, 30, 40, 100 the claimed index rule `floor(0.95 * (count - 1))`
selects position 3 and hence the value 40, but the computed p95 is 100. -/
theorem percentile_formula_counterexample :
    ¬ ((get_statistics sample_state).p95_response_time
        = (List.insertionSort (· ≤ ·) sample_state.response_times).getD
            (95 * (sample_state.response_times.length - 1) / 100) 0) := by
  decide

/-- C3 (amended): `total_requests` is fixed up front as
`num_users * requests_per_user`; the run records one outcome per trial of
every completing user task and exactly one failure for every crashed user
task, so `success_count + failure_count` equals
`completed_users * requests_per_user + crashed_users`.  The claimed
invariant `success_count + failure_count = total_requests` therefore holds
whenever every user task completes, and in the presence of crashes it holds
when `requests_per_user = 1`. -/
theorem run_counts_invariant (num_users requests_per_user : ℕ)
    (prompts : List String) (collab : ℕ → ℕ → String → String → AgentCall)
    (sessions : ℕ → String) (crash : ℕ → Option String) (start stop : ℚ) :
    (crashable_run num_users requests_per_user prompts collab sessions crash
        start stop).total_requests = num_users * requests_per_user
    ∧ (crashable_run num_users requests_per_user prompts collab sessions
          crash start stop).successful_requests
        + (crashable_run num_users requests_per_user prompts collab sessions
            crash start stop).failed_requests
      = ((List.range num_users).filter
            (fun u => (crash u).isNone)).length * requests_per_user
        + ((List.range num_users).filter
            (fun u => (crash u).isSome)).length
    ∧ ((∀ u, u < num_users → crash u = none) →
        (crashable_run num_users requests_per_user prompts collab sessions
            crash start stop).successful_requests
          + (crashable_run num_users requests_per_user prompts collab
              sessions crash start stop).failed_requests
        = (crashable_run num_users requests_per_user prompts collab sessions
            crash start stop).total_requests)
    ∧ (requests_per_user = 1 →
        (crashable_run num_users requests_per_user prompts collab sessions
            crash start stop).successful_requests
          + (crashable_run num_users requests_per_user prompts collab
              sessions crash start stop).failed_requests
        = (crashable_run num_users requests_per_user prompts collab sessions
            crash start stop).total_requests) := by
  have hnot : ∀ o : Option String, (!o.isSome) = o.isNone := by
    intro o; cases o <;> rfl
  have htot : (crashable_run num_users requests_per_user prompts collab
      sessions crash start stop).total_requests
        = num_users * requests_per_user := by
    unfold crashable_run run_load_test
    simp [foldl_collect_total]
  have houtcome : (fun u => task_outcomes
        (crashable_task requests_per_user prompts collab sessions crash u))
      = fun u => if (crash u).isSome then 1 else requests_per_user := by
    funext u
    unfold crashable_task
    cases hc : crash u with
    | some m => simp [task_outcomes]
    | none =>
        have h1 := simulate_user_counts requests_per_user prompts (collab u)
          (sessions u) u
        simp only [task_outcomes, Option.isSome_none, Bool.false_eq_true,
          if_false]
        omega
  have hsum : (crashable_run num_users requests_per_user prompts collab
        sessions crash start stop).successful_requests
      + (crashable_run num_users requests_per_user prompts collab sessions
          crash start stop).failed_requests
      = ((List.range num_users).filter
            (fun u => (crash u).isNone)).length * requests_per_user
        + ((List.range num_users).filter
            (fun u => (crash u).isSome)).length := by
    unfold crashable_run run_load_test
    simp only []
    rw [show (fun (s : LoadTestResults) (u : ℕ) =>
          collect_result s
            (crashable_task requests_per_user prompts collab sessions crash
              u))
        = fun s u => collect_result s
            ((crashable_task requests_per_user prompts collab sessions
              crash) u) from rfl]
    rw [foldl_collect_counts]
    rw [show (List.range num_users).map (fun u => task_outcomes
          (crashable_task requests_per_user prompts collab sessions crash u))
        = (List.range num_users).map
            (fun u => if (crash u).isSome then 1 else requests_per_user)
      from by rw [houtcome]]
    rw [sum_map_ite]
    rw [List.filter_congr (fun u _ => hnot (crash u))]
    simp
    omega
  refine ⟨htot, hsum, ?_, ?_⟩
  · intro hall
    rw [hsum, htot]
    have hfn : (List.range num_users).filter (fun u => (crash u).isNone)
        = List.range num_users :=
      List.filter_eq_self.mpr (fun u hu => by
        rw [hall u (List.mem_range.mp hu)]; rfl)
    have hfs : (List.range num_users).filter (fun u => (crash u).isSome)
        = [] := by
      rw [List.filter_eq_nil_iff]
      intro u hu
      rw [hall u (List.mem_range.mp hu)]
      simp
    rw [hfn, hfs, List.length_range]
    simp
  · intro hm
    rw [hsum, htot, hm]
    have hnot2 : ∀ o : Option String, (!o.isNone) = o.isSome := by
      intro o; cases o <;> rfl
    have hpart := length_filter_partition (fun u => (crash u).isNone)
      (List.range num_users)
    rw [List.filter_congr (fun u _ => hnot2 (crash u))] at hpart
    rw [List.length_range] at hpart
    omega

/-- Witness for C3: a crash-free run with two users and one request each
satisfies the invariant. -/
theorem run_counts_invariant_witness :
    (crashable_run 2 1 ["p"] (fun _ _ _ _ => AgentCall.raises "x" 0)
        (fun _ => "s") (fun _ => none) 0 0).successful_requests
      + (crashable_run 2 1 ["p"] (fun _ _ _ _ => AgentCall.raises "x" 0)
          (fun _ => "s") (fun _ => none) 0 0).failed_requests
    = (crashable_run 2 1 ["p"] (fun _ _ _ _ => AgentCall.raises "x" 0)
        (fun _ => "s") (fun _ => none) 0 0).total_requests :=
  (run_counts_invariant 2 1 ["p"] (fun _ _ _ _ => AgentCall.raises "x" 0)
    (fun _ => "s") (fun _ => none) 0 0).2.2.2 rfl

/-- C3 counterexample: with one user, two requests per user and that user's
task crashing, the run records a single failure, so
`success_count + failure_count = 1` while `total_requests = 2`. -/
theorem run_counts_invariant_counterexample :
    ¬ ((crashable_run 1 2 ["p"] (fun _ _ _ _ => AgentCall.raises "x" 0)
          (fun _ => "s") (fun _ => some "boom") 0 0).successful_requests
        + (crashable_run 1 2 ["p"] (fun _ _ _ _ => AgentCall.raises "x" 0)
            (fun _ => "s") (fun _ => some "boom") 0 0).failed_requests
      = (crashable_run 1 2 ["p"] (fun _ _ _ _ => AgentCall.raises "x" 0)
          (fun _ => "s") (fun _ => some "boom") 0 0).total_requests) := by
  decide

/-- C4: the verdict is pass exactly when the success rate is at least 95
percent and the average latency is strictly below 15000 ms (so an average
of exactly 15000 ms fails); the exit status is 0 on pass and 1 on fail, and
on fail the reported violations are exactly the violated thresholds (hence
at least one). -/
theorem verdict_policy (stats : Stats) :
    (verdict_exit_code stats = 0
        ↔ 95 ≤ stats.success_rate ∧ stats.avg_response_time < 15000)
    ∧ (verdict_exit_code stats = 0 ∨ verdict_exit_code stats = 1)
    ∧ (stats.avg_response_time = 15000 → verdict_exit_code stats = 1)
    ∧ (verdict_exit_code stats = 1 →
        reported_violations stats ≠ []
        ∧ (Threshold.successRate ∈ reported_violations stats
            ↔ stats.success_rate < 95)
        ∧ (Threshold.avgResponseTime ∈ reported_violations stats
            ↔ 15000 ≤ stats.avg_response_time)) := by
  by_cases h1 : 95 ≤ stats.success_rate <;>
    by_cases h2 : stats.avg_response_time < 15000
  · refine ⟨by simp [verdict_exit_code, h1, h2], ?_, ?_, ?_⟩
    · simp [verdict_exit_code, h1, h2]
    · intro he
      rw [he] at h2
      exact absurd h2 (lt_irrefl _)
    · simp [verdict_exit_code, h1, h2]
  · have h2' : 15000 ≤ stats.avg_response_time := le_of_not_lt h2
    have h1' : ¬ stats.success_rate < 95 := not_lt.mpr h1
    refine ⟨by simp [verdict_exit_code, h2], by simp [verdict_exit_code, h2],
      by intro _; simp [verdict_exit_code, h2], ?_⟩
    intro _
    refine ⟨?_, ?_, ?_⟩ <;>
      simp [reported_violations, h1', h2, h2']
  · have h1' : stats.success_rate < 95 := lt_of_not_le h1
    refine ⟨by simp [verdict_exit_code, h1], by simp [verdict_exit_code, h1],
      by intro _; simp [verdict_exit_code, h1], ?_⟩
    intro _
    refine ⟨?_, ?_, ?_⟩ <;>
      simp [reported_violations, h1, h1', h2, not_le.mpr h2]
  · have h1' : stats.success_rate < 95 := lt_of_not_le h1
    have h2' : 15000 ≤ stats.avg_response_time := le_of_not_lt h2
    refine ⟨by simp [verdict_exit_code, h1], by simp [verdict_exit_code, h1],
      by intro _; simp [verdict_exit_code, h1], ?_⟩
    intro _
    refine ⟨?_, ?_, ?_⟩ <;>
      simp [reported_violations, h1, h1', h2']

/-- Witness for C4 at a statistics record with 94 percent success rate and
14999 ms average latency: the run fails with exit code 1 and reports the
success-rate threshold. -/
theorem verdict_policy_witness :
    verdict_exit_code failing_stats = 1
    ∧ reported_violations failing_stats ≠ []
    ∧ Threshold.successRate ∈ reported_violations failing_stats := by
  have h := (verdict_policy failing_stats).2.2.2 (by decide)
  exact ⟨by decide, h.1, h.2.1.mpr (by decide)⟩

/-- C8 (amended): a completed user appends exactly one outcome per trial to
the accumulator — the success and failure counts sum to the number of
requests, each success contributes its own latency in order — but every
failure of that user is recorded with the error text of the user's last
failed request (the single stored error text, "Unknown error" when no
failure stored one), not with each failed trial's own error text. -/
theorem trial_outcome_recording (requests_per_user : ℕ)
    (prompts : List String) (collab : ℕ → String → String → AgentCall)
    (session_id : String) (user_id : ℕ) (s : LoadTestResults) :
    (simulate_user requests_per_user prompts collab session_id
          user_id).successful
        + (simulate_user requests_per_user prompts collab session_id
            user_id).failed
      = requests_per_user
    ∧ (simulate_user requests_per_user prompts collab session_id
          user_id).response_times
      = (((List.range requests_per_user).map
            (user_trial collab prompts session_id user_id)).filter
            (fun r => r.success)).map (fun r => r.duration_ms)
    ∧ (simulate_user requests_per_user prompts collab session_id
          user_id).error
      = ((((List.range requests_per_user).map
            (user_trial collab prompts session_id user_id)).filter
            (fun r => !r.success)).map (fun r => r.error)).getLast?
    ∧ (process_user_result s
          (simulate_user requests_per_user prompts collab session_id
            user_id)).response_times
      = s.response_times
          ++ (simulate_user requests_per_user prompts collab session_id
              user_id).response_times
    ∧ (process_user_result s
          (simulate_user requests_per_user prompts collab session_id
            user_id)).errors
      = s.errors
          ++ List.replicate
              (simulate_user requests_per_user prompts collab session_id
                user_id).failed
              ((simulate_user requests_per_user prompts collab session_id
                  user_id).error.getD "Unknown error") := by
  refine ⟨(simulate_user_counts requests_per_user prompts collab session_id
      user_id).1, ?_, ?_, ?_, ?_⟩
  · rw [simulate_user_eq_foldl, foldl_record_times]
    simp
  · rw [simulate_user_eq_foldl, foldl_record_error]
    simp
  · rw [process_user_result_spec]
  · rw [process_user_result_spec]

/-- C8 counterexample: a user whose two requests fail with the distinct
errors "error A" and "error B" is recorded as the failure sequence
["error B", "error B"]; the first trial's own error text "error A" is
produced by that trial but never appended. -/
theorem trial_error_recording_counterexample :
    (user_trial
        (fun i _ _ => if i = 0 then AgentCall.raises "error A" 1
          else AgentCall.raises "error B" 1)
        ["p"] "s" 0 0).error = "error A"
    ∧ (crashable_run 1 2 ["p"]
        (fun _ i _ _ => if i = 0 then AgentCall.raises "error A" 1
          else AgentCall.raises "error B" 1)
        (fun _ => "s") (fun _ => none) 0 0).errors
      = ["error B", "error B"]
    ∧ ¬ "error A" ∈ (crashable_run 1 2 ["p"]
        (fun _ i _ _ => if i = 0 then AgentCall.raises "error A" 1
          else AgentCall.raises "error B" 1)
        (fun _ => "s") (fun _ => none) 0 0).errors := by
  refine ⟨rfl, ?_, ?_⟩ <;> decide

end LoadTestHarness
